import Mathlib

/-!
Verification of the deBerenReviews review-analytics pipeline.

This file gives a shallow embedding of the decision logic of the pipeline
(src/app/preprocess.py, src/app/complaints.py, src/app/modeling.py,
src/app/llm_suggestions.py, src/app/main.py) and proves or refutes the
frozen claims about it.

Conventions of the embedding:
- pandas cells that can be NaN are `Option` values; `pd.to_numeric(..., errors="coerce")`
  and `pd.to_datetime(..., errors="coerce")` are modelled at the type level: a rating
  cell arrives as `Option ℚ` (`none` = coercion failed / missing) and a timestamp cell
  as `Option Nat` (`none` = NaT, with `Nat` an abstract instant; later instants are larger).
- external collaborators (the spaCy lemmatizer, the NLTK Snowball stemmer, the NLTK
  stopword corpus, sklearn's cross-validation scores and train_test_split, json.loads,
  the calendar rendering of dates/months) are function parameters or explicitly
  documented models; everything else is translated from the source.
- all definitions are computable and structurally recursive so that concrete runs
  evaluate by `decide` / `rfl`.
-/

/-! ## Python string primitives (character-list based, structurally recursive) -/

/-- Model of `str(cell)` applied by `astype(str)` to a pandas object cell:
a missing value (NaN) prints as the string "nan". -/
def pyStr : Option String → String
  | some s => s
  | none => "nan"

/-- Model of Python `str.strip()` (whitespace from both ends). -/
def pyTrim (s : String) : String :=
  String.mk (((s.data.dropWhile Char.isWhitespace).reverse.dropWhile Char.isWhitespace).reverse)

/-- Model of Python `str.lower()` on the character list (ASCII case folding). -/
def pyLower (cs : List Char) : List Char := cs.map Char.toLower

/-- Model of Python `str.isalpha()`: non-empty and all characters alphabetic. -/
def pyIsAlpha (s : String) : Bool := !s.data.isEmpty && s.data.all Char.isAlpha

/-- Literal-prefix test on character lists. -/
def litPre : List Char → List Char → Bool
  | [], _ => true
  | _ :: _, [] => false
  | a :: as, b :: bs => a == b && litPre as bs

/-- Regex-search of a literal pattern inside a text:
`isSub a t` holds iff `a` occurs contiguously in `t` (an empty pattern always matches). -/
def isSub : List Char → List Char → Bool
  | a, [] => a.isEmpty
  | a, c :: ts => litPre a (c :: ts) || isSub a ts

/-- One alternative of the URL regex `https?://\S+|www\.\S+`: the literal must be
followed by at least one non-whitespace character (the `\S+`). -/
def urlAlt (lit : List Char) (cs : List Char) : Bool :=
  litPre lit cs &&
    match cs.drop lit.length with
    | c :: _ => !c.isWhitespace
    | [] => false

/-- Does a match of `url_re = https?://\S+|www\.\S+` start at this position? -/
def isUrlStart (cs : List Char) : Bool :=
  urlAlt "http://".data cs || urlAlt "https://".data cs || urlAlt "www.".data cs

/-- Model of `url_re.sub(" ", t)`: each URL match (the literal start plus the maximal
run of non-whitespace characters) is replaced by a single space.  The flag records
that we are inside a match still being consumed. -/
def stripUrlsGo : Bool → List Char → List Char
  | _, [] => []
  | true, c :: cs => if c.isWhitespace then c :: stripUrlsGo false cs else stripUrlsGo true cs
  | false, c :: cs =>
    if isUrlStart (c :: cs) then ' ' :: stripUrlsGo true cs
    else c :: stripUrlsGo false cs

/-- Model of `num_re.sub(" ", t)` with `num_re = \d+`: each maximal digit run is
replaced by a single space.  The flag records that the current run was already replaced. -/
def stripNumsGo : Bool → List Char → List Char
  | _, [] => []
  | inRun, c :: cs =>
    if c.isDigit then (if inRun then [] else [' ']) ++ stripNumsGo true cs
    else c :: stripNumsGo false cs

/-- The characters of Python `string.punctuation` (the quote, apostrophe, backtick and
brace characters are spelled by code point). -/
def punctChars : List Char :=
  ['!', Char.ofNat 34, '#', '$', '%', '&', Char.ofNat 39, '(', ')', '*', '+', ',', '-',
   '.', '/', ':', ';', '<', '=', '>', '?', '@', '[', '\\', ']', '^', '_', Char.ofNat 96,
   Char.ofNat 123, '|', Char.ofNat 125, '~']

/-- Model of `t.translate(str.maketrans("", "", string.punctuation))`:
delete every punctuation character. -/
def stripPunct (cs : List Char) : List Char := cs.filter (fun c => !punctChars.contains c)

/-- Model of Python `str.split()` with no separator: split on whitespace runs,
producing no empty words.  `cur` accumulates the current word reversed. -/
def splitWsGo (cur : List Char) : List Char → List (List Char)
  | [] => if cur.isEmpty then [] else [cur.reverse]
  | c :: cs =>
    if c.isWhitespace then (if cur.isEmpty then [] else [cur.reverse]) ++ splitWsGo [] cs
    else splitWsGo (c :: cur) cs

/-- Model of `" ".join(tokens)`. -/
def joinSpace : List String → String
  | [] => ""
  | [w] => w
  | w :: ws => w ++ " " ++ joinSpace ws

/-- Concatenation of a list of strings. -/
def concatAll : List String → String
  | [] => ""
  | s :: ss => s ++ concatAll ss

/-! ## Record normalizer (src/app/preprocess.py, `basic_clean`) -/

/-- The `CleanConfig` dataclass of src/app/preprocess.py (ratings are compared as
floats against these bounds, so they are rationals here). -/
structure CleanConfig where
  min_rating : ℚ := 1
  max_rating : ℚ := 5
  neutral_rating : ℚ := 3
deriving DecidableEq

/-- `CleanConfig()` with its default field values, as constructed in `main`. -/
def defaultCleanConfig : CleanConfig := {}

/-- A review row as pandas carries it through `basic_clean`.  `none` models a
NaN/NaT cell; `date`/`month`/`sentiment` are the derived columns, absent (`none`)
until the corresponding pipeline step writes them. -/
structure PRow where
  source : Option String
  review : Option String
  rating : Option ℚ
  location : Option String
  timestamp : Option Nat
  date : Option String
  month : Option String
  sentiment : Option String
deriving DecidableEq

/-- The inner `label_sentiment` of `basic_clean` (src/app/preprocess.py lines 67-72). -/
def label_sentiment (r : ℚ) : String :=
  if r ≤ 2 then "negative" else if 4 ≤ r then "positive" else "neutral"

/-- `label_sentiment` as applied to a rating cell by `df["rating"].apply(...)`:
on a NaN cell both float comparisons are false, giving "neutral"
(unreachable after the dropna step). -/
def label_sentiment_cell : Option ℚ → String
  | some q => label_sentiment q
  | none => "neutral"

/-- Lines 47-49: `df[c] = df[c].astype(str).str.strip()` for source, review, location.
`astype(str)` renders a NaN cell as the string "nan", so after this step these
columns never contain NaN. -/
def stripRow (r : PRow) : PRow :=
  { r with
    source := some (pyTrim (pyStr r.source)),
    review := some (pyTrim (pyStr r.review)),
    location := some (pyTrim (pyStr r.location)) }

/-- The column-stripping step over the whole frame. -/
def stripStep (l : List PRow) : List PRow := l.map stripRow

/-- Line 52: `df["rating"] = pd.to_numeric(df["rating"], errors="coerce")`.
The coercion is modelled at the type level (the rating cell arrives as `Option ℚ`),
so this step is the identity on the model. -/
def coerceStep (l : List PRow) : List PRow := l

/-- Line 53: `df = df.dropna(subset=["review", "rating"])`. -/
def dropnaStep (l : List PRow) : List PRow :=
  l.filter (fun r => r.review.isSome && r.rating.isSome)

/-- The boolean mask of line 54: `(df["rating"] >= cfg.min_rating) & (df["rating"] <= cfg.max_rating)`;
a NaN rating compares false. -/
def inRange (cfg : CleanConfig) : Option ℚ → Bool
  | some q => decide (cfg.min_rating ≤ q) && decide (q ≤ cfg.max_rating)
  | none => false

/-- Line 54: keep only rows whose rating lies in the configured range. -/
def rangeStep (cfg : CleanConfig) (l : List PRow) : List PRow :=
  l.filter (fun r => inRange cfg r.rating)

/-- Line 57: `df["timestamp"] = pd.to_datetime(..., errors="coerce", utc=True)`.
Modelled at the type level (the timestamp cell arrives as `Option Nat`),
so this step is the identity on the model. -/
def tsStep (l : List PRow) : List PRow := l

/-- Lines 59-61: derive the `date` and `month` columns from the timestamp.
`dayOf`/`monthOf` model the external calendar rendering; a NaT timestamp gives a
NaT date and the string "NaT" for the month (`to_period("M").astype(str)`). -/
def calRow (dayOf monthOf : Nat → String) (r : PRow) : PRow :=
  { r with
    date := r.timestamp.map dayOf,
    month := some (match r.timestamp with | none => "NaT" | some t => monthOf t) }

/-- The date/month derivation over the whole frame. -/
def calStep (dayOf monthOf : Nat → String) (l : List PRow) : List PRow :=
  l.map (calRow dayOf monthOf)

/-- Comparison key of `df.sort_values("timestamp")`: timestamps ascending,
NaT placed last (pandas `na_position="last"`). -/
def tsLE : Option Nat → Option Nat → Bool
  | _, none => true
  | none, some _ => false
  | some a, some b => decide (a ≤ b)

/-- Insertion into a timestamp-sorted list, before any row with an equal key
(so that the overall sort is stable, preserving input order on ties). -/
def insertTs (x : PRow) : List PRow → List PRow
  | [] => [x]
  | y :: ys => if tsLE x.timestamp y.timestamp then x :: y :: ys else y :: insertTs x ys

/-- Stable sort of the frame by timestamp (NaT last), line 64 first half. -/
def sortByTs : List PRow → List PRow
  | [] => []
  | x :: xs => insertTs x (sortByTs xs)

/-- Line 64 second half: `drop_duplicates(subset=["review"], keep="last")` —
a row is kept iff no later row has the same review cell. -/
def dropDupKeepLast : List PRow → List PRow
  | [] => []
  | x :: xs =>
    if xs.any (fun y => y.review == x.review) then dropDupKeepLast xs
    else x :: dropDupKeepLast xs

/-- Line 74: attach the sentiment column derived from the rating. -/
def labelRow (r : PRow) : PRow :=
  { r with sentiment := some (label_sentiment_cell r.rating) }

/-- The sentiment-labelling step over the whole frame. -/
def sentimentStep (l : List PRow) : List PRow := l.map labelRow

/-- `basic_clean(df, cfg)` of src/app/preprocess.py lines 44-75, as the composition
of its line-by-line steps in source order. -/
def basic_clean (dayOf monthOf : Nat → String) (cfg : CleanConfig) (rows : List PRow) : List PRow :=
  sentimentStep (dropDupKeepLast (sortByTs (calStep dayOf monthOf
    (tsStep (rangeStep cfg (dropnaStep (coerceStep (stripStep rows))))))))

/-- The fully normalized image of a single raw row (strip and calendar steps applied),
used to phrase which of two duplicate rows survives. -/
def normRow (dayOf monthOf : Nat → String) (r : PRow) : PRow :=
  calRow dayOf monthOf (stripRow r)

/-! ## Text cleaner (src/app/preprocess.py, `preprocess_texts`) -/

/-- Model of the external NLTK Dutch stopword corpus (`stopwords.words("dutch")`,
external data, not repository code).  The claims below only rely on membership of
"niet" and "geen" and on non-membership of the handful of content words they evaluate. -/
def nltk_dutch_stopwords : List String :=
  ["de", "en", "van", "ik", "te", "dat", "die", "in", "een", "hij", "het", "niet",
   "zijn", "is", "was", "op", "aan", "met", "als", "voor", "had", "er", "maar", "om",
   "hem", "dan", "zou", "of", "wat", "mijn", "men", "dit", "zo", "door", "over", "ze",
   "zich", "bij", "ook", "tot", "je", "mij", "uit", "der", "daar", "haar", "naar",
   "heb", "hoe", "heeft", "hebben", "deze", "u", "want", "nog", "zal", "me", "zij",
   "nu", "ge", "geen", "omdat", "iets", "worden", "toch", "al", "waren", "veel",
   "meer", "doen", "toen", "moet", "ben", "zonder", "kan", "hun", "dus", "alles",
   "onder", "ja", "eens", "hier", "wie", "werd", "altijd", "doch", "wordt", "wezen",
   "kunnen", "ons", "zelf", "tegen", "na", "reeds", "wil", "kon", "niets", "uw",
   "iemand", "geweest", "andere"]

/-- The `domain_extra` stopword additions of `preprocess_texts` (line 85). -/
def domain_extra : List String :=
  ["beren", "restaurant", "eten", "drinken", "menukaart", "besteld", "bestellen", "gerechten"]

/-- `stop_set = set(stopwords.words("dutch")) | domain_extra` (line 86), as a
membership test. -/
def stop_set (w : String) : Bool :=
  nltk_dutch_stopwords.contains w || domain_extra.contains w

/-- The token loop of `clean_nltk` (src/app/preprocess.py lines 130-143), over the
whitespace-split words.  `stop` is the stopword test and `st` the external Snowball
Dutch stemmer.  Note that in the negation branch the code appends `"not_" + nxt`
with the raw next word — the stemmer is not applied there. -/
def negLoopNltk (stop : String → Bool) (st : String → String) : List String → List String
  | [] => []
  | [w] => if !stop w && decide (2 < w.length) then [st w] else []
  | w :: nxt :: rest =>
    if w == "niet" || w == "geen" then
      (if !stop nxt && decide (2 < nxt.length) then ["not_" ++ nxt] else []) ++
        negLoopNltk stop st rest
    else
      (if !stop w && decide (2 < w.length) then [st w] else []) ++
        negLoopNltk stop st (nxt :: rest)

/-- `clean_nltk(t)` of src/app/preprocess.py lines 125-144: lowercase, strip URLs,
strip digit runs, delete punctuation, whitespace-split, then the negation-aware
stop/stem loop, joined by single spaces. -/
def clean_nltk (stop : String → Bool) (st : String → String) (t : String) : String :=
  let cs := pyLower t.data
  let cs := stripUrlsGo false cs
  let cs := stripNumsGo false cs
  let cs := stripPunct cs
  let parts := (splitWsGo [] cs).map String.mk
  joinSpace (negLoopNltk stop st parts)

/-- A spaCy token as `clean_spacy` consumes it: its lemma and the `is_space` /
`is_punct` flags (the external spaCy pipeline produces these). -/
structure SToken where
  lemma_ : String
  is_space : Bool
  is_punct : Bool
deriving DecidableEq

/-- The token loop of `clean_spacy` (src/app/preprocess.py lines 98-119):
skip space/punctuation tokens and empty lemmas; on "niet"/"geen" with a following
token, fuse to `not_<next lemma>` when the next lemma is non-empty, not a stopword
and longer than 2 characters, consuming both tokens; otherwise emit the lemma when
it is not a stopword, longer than 2 characters and alphabetic. -/
def spacyLoop (stop : String → Bool) : List SToken → List String
  | [] => []
  | [tok] =>
    if tok.is_space || tok.is_punct then []
    else
      let lem := pyTrim tok.lemma_
      if lem == "" then []
      else if !stop lem && decide (2 < lem.length) && pyIsAlpha lem then [lem]
      else []
  | tok :: nxt :: rest =>
    if tok.is_space || tok.is_punct then spacyLoop stop (nxt :: rest)
    else
      let lem := pyTrim tok.lemma_
      if lem == "" then spacyLoop stop (nxt :: rest)
      else if lem == "niet" || lem == "geen" then
        let nl := pyTrim nxt.lemma_
        (if !(nl == "") && !stop nl && decide (2 < nl.length) then ["not_" ++ nl] else []) ++
          spacyLoop stop rest
      else
        (if !stop lem && decide (2 < lem.length) && pyIsAlpha lem then [lem] else []) ++
          spacyLoop stop (nxt :: rest)

/-- `clean_spacy(t)` of src/app/preprocess.py lines 93-120: lowercase, strip URLs,
strip digit runs, run the external pipeline `nlp` and the token loop, join by spaces. -/
def clean_spacy (stop : String → Bool) (nlp : String → List SToken) (t : String) : String :=
  let cs := pyLower t.data
  let cs := stripUrlsGo false cs
  let cs := stripNumsGo false cs
  joinSpace (spacyLoop stop (nlp (String.mk cs)))

/-- Model of the external Snowball Dutch stemmer at the words this development
evaluates it on: it stems "lekkere" to "lekker" (step 1 removes the e-suffix) and
returns "notgoed" unchanged (no Dutch suffix applies).  Only its values at those
two words are relied upon below. -/
def snowball_model (w : String) : String :=
  if w == "lekkere" then "lekker" else w

/-- Model of the external spaCy Dutch pipeline on the plain inputs evaluated here:
whitespace tokenization with the surface form as lemma (correct for the already
lemma-form words "niet", "geen", "goed" used below), no space/punct tokens. -/
def nlp_model (t : String) : List SToken :=
  (splitWsGo [] t.data).map (fun w => ⟨String.mk w, false, false⟩)

/-! ## Complaint tagger (src/app/complaints.py) -/

/-- `complaint_taxonomy()` of src/app/complaints.py lines 11-20.  Every pattern is an
alternation of literals, modelled as the list of its alternatives:
`koud\w*` matches anywhere iff "koud" does (`\w*` may be empty), `prijs\-kwaliteit`
is the literal "prijs-kwaliteit", and the cleanliness class is `hygi[eÃ«]ne` in the
source bytes (mojibake for `ë`), i.e. the three alternatives "hygiene", "hygiÃne",
"hygi«ne" — plain "hygiëne" does not match. -/
def complaint_taxonomy : List (String × List String) :=
  [("service", ["bedien", "servic", "onvriend", "gastvrij", "attent", "aandacht",
                "personeel", "medewerker"]),
   ("wait_time", ["wacht", "wachttijd", "lang", "traag", "op tijd", "duur", "snel",
                  "verlaat"]),
   ("food_quality", ["slecht", "niet lekker", "taai", "rauw", "doorbak", "verbrand",
                     "kwaliteit", "smaak", "vies", "smerig", "klef", "droog"]),
   ("portion_temp", ["koud", "lauw", "warmhoud", "temperatuur", "koud", "afgekoeld"]),
   ("pricing_value", ["duur", "rekening", "prijs", "te duur", "prijs-kwaliteit",
                      "overprijs", "kosten"]),
   ("ambience", ["muziek", "lawaai", "geluid", "herrie", "airco", "warm", "heet",
                 "klimaat", "druk", "sfeer"]),
   ("order_accuracy", ["vergeten", "ontbrak", "fout", "verkeerd", "bon", "bestelling",
                       "niet gekregen"]),
   ("cleanliness", ["vies", "smerig", "vuil", "schoon", "hygiene", "hygiÃne",
                    "hygi«ne", "insect", "vlieg"])]

/-- `rx.search(t)` for a compiled alternation-of-literals pattern: does any
alternative occur in the text? -/
def rxSearch (alts : List String) (t : String) : Bool :=
  alts.any (fun a => isSub a.data t.data)

/-- The per-text category list of `tag_complaints`:
`[k for k, rx in compiled.items() if rx.search(t)]` (line 30). -/
def tagText (t : String) : List String :=
  (complaint_taxonomy.filter (fun kv => rxSearch kv.2 t)).map Prod.fst

/-- `tag_complaints(texts)` of src/app/complaints.py lines 23-33.  The `Counter`
built by `total.update(found)` is modelled as the multiset of all emitted tags
(the concatenation of the per-text lists); a category's total is its
`List.count` in that multiset. -/
def tag_complaints (texts : List String) : List (List String) × List String :=
  let per_text := texts.map tagText
  (per_text, per_text.flatten)

/-! ## Model selection (src/app/modeling.py, `train_sentiment_model`) -/

/-- The candidate names of src/app/modeling.py lines 13-17, in construction order:
five logistic regressions then four linear SVCs (the name determines the
configured estimator). -/
def candidate_grid : List String :=
  ["logreg_C=0.1", "logreg_C=0.5", "logreg_C=1.0", "logreg_C=3.0", "logreg_C=10.0",
   "linsvc_C=0.5", "linsvc_C=1.0", "linsvc_C=3.0", "linsvc_C=10.0"]

/-- Lines 9-11: `min_count = min(counts) if counts else 0`;
`n_splits = np.clip(min_count, 2, 3)`. -/
def n_splits (classCounts : List Nat) : Nat :=
  let min_count := match classCounts with
    | [] => 0
    | c :: cs => cs.foldl Nat.min c
  Nat.min (Nat.max min_count 2) 3

/-- The selection loop of lines 24-33 over the candidate names.  `score name` models
`np.nanmean(cross_val_score(...))` for that candidate: `none` when the call raised
or the mean is not finite, otherwise the finite mean macro-F1.  The accumulator is
`(best_name, best_score)` with `best_score` initialized to -1. -/
def select_fold (score : String → Option ℚ) (l : List String)
    (acc : Option String × ℚ) : Option String × ℚ :=
  l.foldl (fun acc name =>
    match score name with
    | none => acc
    | some s => if acc.2 < s then (some name, s) else acc) acc

/-- `train_sentiment_model` of src/app/modeling.py lines 7-38, returning the chosen
candidate's name (which determines the returned estimator).  When no candidate
obtained a finite score, line 35 falls back to `candidates[0]`
(the grid is non-empty, so `headD` never uses its default). -/
def train_sentiment_model (classCounts : List Nat) (score : String → Option ℚ) : String :=
  let best :=
    if 2 ≤ n_splits classCounts then
      select_fold score candidate_grid ((none : Option String), (-1 : ℚ))
    else ((none : Option String), (-1 : ℚ))
  match best.1 with
  | some name => name
  | none => candidate_grid.headD ""

/-! ## Suggestion generator (src/app/llm_suggestions.py, `generate_suggestions_llm`) -/

/-- Outcome of `json.loads` on the response text (the external json library):
a parse failure (`JSONDecodeError`), a parsed value that is not a list, or a
parsed list whose elements are given after Python `str(...)`. -/
inductive JLoadResult
  | err
  | notList
  | list (items : List String)
deriving DecidableEq

/-- Outcome of the `requests.post` call of lines 62-64: any raised exception
(transport failure, timeout, `raise_for_status`, unparseable response object),
or a successful call with the `response` field of the returned payload. -/
inductive LLMCall
  | exn
  | response (text : String)
deriving DecidableEq

/-- The de-duplication loop of lines 73-78: keep the first occurrence of each
string, preserving order (`seen` is the set of already-kept strings). -/
def dedupSeen (seen : List String) : List String → List String
  | [] => []
  | s :: rest =>
    if seen.contains s then dedupSeen seen rest
    else s :: dedupSeen (s :: seen) rest

/-- Python `ln.strip("- • ")`: remove the characters '-', ' ', '•' from both ends. -/
def stripBullets (s : String) : String :=
  let bulletChars := ['-', ' ', '•']
  String.mk (((s.data.dropWhile bulletChars.contains).reverse.dropWhile
    bulletChars.contains).reverse)

/-- Model of `str.splitlines()` restricted to '\n' separators.  Unlike Python it can
emit a trailing empty segment, but the caller filters empty lines immediately, so
the difference is unobservable in `generate_suggestions_llm`. -/
def splitLinesGo (cur : List Char) : List Char → List String
  | [] => [String.mk cur.reverse]
  | c :: cs =>
    if c == '\n' then String.mk cur.reverse :: splitLinesGo [] cs
    else splitLinesGo (c :: cur) cs

/-- `generate_suggestions_llm` of src/app/llm_suggestions.py lines 48-88, from the
call outcome on.  On any exception return `[]` (line 88).  On a response, strip it;
if it parses as a JSON list, keep the stripped non-empty elements de-duplicated in
order (lines 68-79); otherwise fall back to the line heuristic of lines 83-86:
non-blank lines, bullet-stripped, of length > 6, at most 7 of them — without
de-duplication. -/
def generate_suggestions_llm (jloads : String → JLoadResult) (call : LLMCall) : List String :=
  match call with
  | .exn => []
  | .response body =>
    let text := pyTrim body
    match jloads text with
    | .list items =>
      let items := (items.map pyTrim).filter (fun s => !(s == ""))
      dedupSeen [] items
    | _ =>
      let lines := (splitLinesGo [] text.data).filter (fun ln => !(pyTrim ln == ""))
      let lines := lines.map stripBullets
      (lines.filter (fun ln => decide (6 < ln.length))).take 7

/-! ## Pipeline driver (src/app/main.py, `main`) -/

/-- Modelled from the external sklearn `train_test_split(..., test_size=0.2,
stratify=y)` as used on line 45 of src/app/main.py: it raises `ValueError` when the
input has zero samples (the resulting train set would be empty) and when some
stratification class has fewer than 2 members; the split contents themselves feed
only external estimator code and are not modelled. -/
def train_test_split (xs ys : List String) : Except String Unit :=
  if xs.length == 0 then
    Except.error "ValueError: with n_samples=0 the resulting train set will be empty"
  else if ys.any (fun c => decide (ys.count c < 2)) then
    Except.error "ValueError: the least populated class in y has only 1 member"
  else Except.ok ()

/-- Lines 87-91 of src/app/main.py: the `Counter` of complaint categories restricted
to negative-labelled rows, modelled as the multiset (concatenation) of the tag lists
of rows whose mask bit is set. -/
def neg_complaints (per_text : List (List String)) (neg_mask : List Bool) : List String :=
  (((per_text.zip neg_mask).filter (fun p => p.2)).map Prod.fst).flatten

/-- Lines 97-110 of src/app/main.py: the rule-based suggestion list built from the
negative complaint counts, in source order. -/
def rule_suggestions (negC : List String) : List String :=
  if negC.isEmpty then [] else
    (if 0 < negC.count "wait_time" || 0 < negC.count "service" then
      ["Reduce wait times and improve service flow: adjust peak staffing and set service time KPIs."]
     else []) ++
    (if 0 < negC.count "portion_temp" || 0 < negC.count "food_quality" then
      ["Food quality control: enforce pass checks to avoid cold/forgotten dishes and standardize recipes."]
     else []) ++
    (if 0 < negC.count "pricing_value" then
      ["Pricing perception: introduce value bundles and clarify pricing on menus."]
     else []) ++
    (if 0 < negC.count "ambience" then
      ["Ambience: adjust music volume policy and review climate control standards."]
     else []) ++
    (if 0 < negC.count "cleanliness" then
      ["Cleanliness: increase FOH/BOH cleaning cadence and visible hygiene checks."]
     else []) ++
    (if 0 < negC.count "order_accuracy" then
      ["Order accuracy: implement order confirmation steps and expo verification."]
     else [])

/-- The static fallback text written when no suggestion was produced
(src/app/main.py line 119). -/
def fallback_message : String :=
  "No strong recurring pain points detected in negative topics. Continue monitoring."

/-- Lines 113-119 of src/app/main.py: the content of `business_suggestions.txt`
(`if suggestions:` is Python truthiness, i.e. non-emptiness). -/
def business_suggestions_file (suggestions : List String) : String :=
  if suggestions.isEmpty then fallback_message
  else "Key improvement suggestions (data-driven):\n" ++
    concatAll (suggestions.map (fun s => "- " ++ s ++ "\n"))

/-- The decision core of `main()` (src/app/main.py lines 29-123) after loading:
normalize, clean the texts (`cleanText` is the selected cleaner variant of
`preprocess_texts`), stratified-split for the supervised model (the first fallible
step — sklearn's `ValueError`s surface here), select a model (`classCounts` and
`score` model the external cross-validation inputs), tag complaints, restrict to
negative rows, and build the suggestion outputs.  Chart rendering and CSV/Excel
writing are external output collaborators and are not modelled; the function
returns the suggestion list and the text written to `business_suggestions.txt`. -/
def run_main (dayOf monthOf : Nat → String) (cleanText : String → String)
    (classCounts : List Nat) (score : String → Option ℚ) (rows : List PRow) :
    Except String (List String × String) := do
  let df := basic_clean dayOf monthOf defaultCleanConfig rows
  let cleaned := df.map (fun r => cleanText (pyStr r.review))
  let y := df.map (fun r => pyStr r.sentiment)
  let _ ← train_test_split cleaned y
  let _model_name := train_sentiment_model classCounts score
  let tagged := tag_complaints cleaned
  let neg_mask := df.map (fun r => r.sentiment == some "negative")
  let negC := neg_complaints tagged.1 neg_mask
  let suggestions := rule_suggestions negC
  Except.ok (suggestions, business_suggestions_file suggestions)

/-! ## Heap model of frame effects (for the `basic_clean` no-mutation claim) -/

/-- A heap of pandas DataFrame objects: `next` is the next fresh address, `mem`
the frame stored at each address. -/
structure Heap where
  next : Nat
  mem : Nat → List PRow

/-- Allocate a fresh frame holding `v`, returning the new heap and the address. -/
def Heap.alloc (h : Heap) (v : List PRow) : Heap × Nat :=
  (⟨h.next + 1, fun i => if i = h.next then v else h.mem i⟩, h.next)

/-- Overwrite the frame at address `a` (an in-place pandas column assignment). -/
def Heap.write (h : Heap) (a : Nat) (v : List PRow) : Heap :=
  ⟨h.next, fun i => if i = a then v else h.mem i⟩

/-- `basic_clean` as a heap program, with every source line mapped to its effect:
`df = df.copy()` (line 45) allocates; column assignments (lines 47-49, 52, 57,
60-61, 74) write in place to the frame the local `df` points to; the rebinding
lines 53, 54 and 64 allocate the new frame returned by pandas.  The caller's
frame lives at address `a`; the returned address holds the result. -/
def basic_clean_prog (dayOf monthOf : Nat → String) (cfg : CleanConfig)
    (h0 : Heap) (a : Nat) : Heap × Nat :=
  let p1 := h0.alloc (h0.mem a)
  let h1 := p1.1
  let b0 := p1.2
  let h2 := h1.write b0 (stripStep (h1.mem b0))
  let h3 := h2.write b0 (coerceStep (h2.mem b0))
  let p2 := h3.alloc (dropnaStep (h3.mem b0))
  let h4 := p2.1
  let b1 := p2.2
  let p3 := h4.alloc (rangeStep cfg (h4.mem b1))
  let h5 := p3.1
  let b2 := p3.2
  let h6 := h5.write b2 (tsStep (h5.mem b2))
  let h7 := h6.write b2 (calStep dayOf monthOf (h6.mem b2))
  let p4 := h7.alloc (dropDupKeepLast (sortByTs (h7.mem b2)))
  let h8 := p4.1
  let b3 := p4.2
  let h9 := h8.write b3 (sentimentStep (h8.mem b3))
  (h9, b3)

/-! ## Helper lemmas -/

@[simp] lemma stripRow_review (r : PRow) : (stripRow r).review = some (pyTrim (pyStr r.review)) := rfl

@[simp] lemma stripRow_rating (r : PRow) : (stripRow r).rating = r.rating := rfl

@[simp] lemma stripRow_timestamp (r : PRow) : (stripRow r).timestamp = r.timestamp := rfl

@[simp] lemma calRow_review (d m : Nat → String) (r : PRow) : (calRow d m r).review = r.review := rfl

@[simp] lemma calRow_rating (d m : Nat → String) (r : PRow) : (calRow d m r).rating = r.rating := rfl

@[simp] lemma calRow_timestamp (d m : Nat → String) (r : PRow) : (calRow d m r).timestamp = r.timestamp := rfl

@[simp] lemma labelRow_rating (r : PRow) : (labelRow r).rating = r.rating := rfl

@[simp] lemma labelRow_review (r : PRow) : (labelRow r).review = r.review := rfl

@[simp] lemma labelRow_sentiment (r : PRow) :
    (labelRow r).sentiment = some (label_sentiment_cell r.rating) := rfl

@[simp] lemma normRow_review (d m : Nat → String) (r : PRow) :
    (normRow d m r).review = some (pyTrim (pyStr r.review)) := rfl

@[simp] lemma normRow_rating (d m : Nat → String) (r : PRow) :
    (normRow d m r).rating = r.rating := rfl

@[simp] lemma normRow_timestamp (d m : Nat → String) (r : PRow) :
    (normRow d m r).timestamp = r.timestamp := rfl

lemma mem_of_mem_insertTs {x y : PRow} :
    ∀ l : List PRow, y ∈ insertTs x l → y = x ∨ y ∈ l := by
  intro l
  induction l with
  | nil => intro h; simpa [insertTs] using h
  | cons z zs ih =>
    intro h
    by_cases hc : tsLE x.timestamp z.timestamp = true
    · simpa [insertTs, hc] using h
    · simp only [insertTs] at h
      rw [if_neg hc] at h
      rcases List.mem_cons.1 h with h | h
      · exact Or.inr (by simp [h])
      · rcases ih h with h' | h'
        · exact Or.inl h'
        · exact Or.inr (by simp [h'])

lemma mem_of_mem_sortByTs {y : PRow} :
    ∀ l : List PRow, y ∈ sortByTs l → y ∈ l := by
  intro l
  induction l with
  | nil => intro h; simp [sortByTs] at h
  | cons x xs ih =>
    intro h
    rcases mem_of_mem_insertTs (sortByTs xs) (by simpa [sortByTs] using h) with h' | h'
    · simp [h']
    · simp [ih h']

lemma mem_of_mem_dropDupKeepLast {y : PRow} :
    ∀ l : List PRow, y ∈ dropDupKeepLast l → y ∈ l := by
  intro l
  induction l with
  | nil => intro h; simp [dropDupKeepLast] at h
  | cons x xs ih =>
    intro h
    by_cases hc : xs.any (fun z => z.review == x.review) = true
    · simp only [dropDupKeepLast] at h
      rw [if_pos hc] at h
      exact List.mem_cons_of_mem _ (ih h)
    · simp only [dropDupKeepLast] at h
      rw [if_neg hc] at h
      rcases List.mem_cons.1 h with h | h
      · simp [h]
      · exact List.mem_cons_of_mem _ (ih h)

/-! ## C1: the sentiment label is a pure function of the rating -/

/-- C1.  Every row surviving `basic_clean` (with the default config) carries a
numeric rating in [1,5], its sentiment cell is exactly `label_sentiment` of that
rating (a pure function of the rating alone), and that function maps ratings
1 and 2 to "negative", 3 to "neutral", and 4 and 5 to "positive". -/
theorem C1_sentiment_pure_function (dayOf monthOf : Nat → String)
    (rows : List PRow) (row : PRow)
    (h : row ∈ basic_clean dayOf monthOf defaultCleanConfig rows) :
    row.sentiment = some (label_sentiment_cell row.rating) ∧
    (∃ q : ℚ, row.rating = some q ∧ 1 ≤ q ∧ q ≤ 5) ∧
    label_sentiment 1 = "negative" ∧ label_sentiment 2 = "negative" ∧
    label_sentiment 3 = "neutral" ∧
    label_sentiment 4 = "positive" ∧ label_sentiment 5 = "positive" := by
  rcases List.mem_map.1 h with ⟨r', hr', rfl⟩
  have hr'' := mem_of_mem_sortByTs _ (mem_of_mem_dropDupKeepLast _ hr')
  rcases List.mem_map.1 hr'' with ⟨r'', hr''', rfl⟩
  have hrange := (List.mem_filter.1 hr''').2
  refine ⟨rfl, ?_, by decide, by decide, by decide, by decide, by decide⟩
  rcases hq : r''.rating with _ | q
  · rw [hq] at hrange; simp [inRange] at hrange
  · rw [hq] at hrange
    simp only [inRange, Bool.and_eq_true, decide_eq_true_eq] at hrange
    exact ⟨q, by simp [hq], hrange.1, hrange.2⟩

/-! ## C4: which malformed rows does the normalizer actually drop? -/

/-- A fixed calendar-rendering stand-in for concrete runs. -/
def cal0 : Nat → String := fun _ => ""

/-- C4 (evaluation at the failing inputs).  A row with a non-numeric rating is
dropped silently, as claimed; but a row whose review text is only whitespace
survives with review "" and a row with a missing (NaN) review survives with
review "nan": `astype(str).str.strip()` runs before `dropna(subset=["review", ...])`,
so the review column never contains NaN and the intended text filter
(`# must have text and rating`) never fires. -/
theorem C4_empty_text_row_survives :
    basic_clean cal0 cal0 defaultCleanConfig
      [⟨some "google", some "prima", none, none, none, none, none, none⟩] = [] ∧
    (basic_clean cal0 cal0 defaultCleanConfig
      [⟨some "google", some "   ", some 5, none, none, none, none, none⟩]).map
        (fun r => (r.review, r.rating, r.sentiment)) =
      [(some "", some 5, some "positive")] ∧
    (basic_clean cal0 cal0 defaultCleanConfig
      [⟨some "google", none, some 4, none, none, none, none, none⟩]).map
        (fun r => (r.review, r.sentiment)) =
      [(some "nan", some "positive")] := by
  refine ⟨by decide, by decide, by decide⟩

/-! ## C10: `basic_clean` does not mutate the caller's frame -/

/-- C10.  `basic_clean` first copies the caller's frame and then only writes to
frames it allocated itself, so the frame at the caller's address is unchanged
after the call. -/
theorem C10_basic_clean_no_mutation (dayOf monthOf : Nat → String) (cfg : CleanConfig)
    (h : Heap) (a : Nat) (ha : a < h.next) :
    ((basic_clean_prog dayOf monthOf cfg h a).1).mem a = h.mem a := by
  have h0 : ¬ a = h.next := by omega
  have h1 : ¬ a = h.next + 1 := by omega
  have h2 : ¬ a = h.next + 2 := by omega
  have h3 : ¬ a = h.next + 3 := by omega
  simp only [basic_clean_prog, Heap.alloc, Heap.write, if_neg h0, if_neg h1, if_neg h2, if_neg h3]

/-- An example heap with one allocated (empty) frame at address 0. -/
def heap0 : Heap := ⟨1, fun _ => [⟨none, some "top", some 5, none, none, none, none, none⟩]⟩

/-- Witness for C10 at a concrete heap and address. -/
theorem C10_witness :
    ((basic_clean_prog cal0 cal0 defaultCleanConfig heap0 0).1).mem 0 = heap0.mem 0 :=
  C10_basic_clean_no_mutation cal0 cal0 defaultCleanConfig heap0 0 (by decide)

@[simp] lemma defaultCleanConfig_min : defaultCleanConfig.min_rating = 1 := rfl

@[simp] lemma defaultCleanConfig_max : defaultCleanConfig.max_rating = 5 := rfl

/-! ## C2: deduplication keeps the row with the later timestamp -/

lemma two_row_core (n1 n2 : PRow) (hrev : n1.review = n2.review) :
    sentimentStep (dropDupKeepLast (sortByTs [n1, n2])) =
      if tsLE n1.timestamp n2.timestamp then [labelRow n2] else [labelRow n1] := by
  by_cases hc : tsLE n1.timestamp n2.timestamp = true
  · simp [sortByTs, insertTs, hc, dropDupKeepLast, hrev, sentimentStep]
  · simp [sortByTs, insertTs, hc, dropDupKeepLast, hrev, sentimentStep]

lemma prep_two (dayOf monthOf : Nat → String) (r1 r2 : PRow) (q1 q2 : ℚ)
    (h1 : r1.rating = some q1) (h11 : 1 ≤ q1) (h12 : q1 ≤ 5)
    (h2 : r2.rating = some q2) (h21 : 1 ≤ q2) (h22 : q2 ≤ 5) :
    calStep dayOf monthOf (tsStep (rangeStep defaultCleanConfig
      (dropnaStep (coerceStep (stripStep [r1, r2]))))) =
      [normRow dayOf monthOf r1, normRow dayOf monthOf r2] := by
  simp [stripStep, coerceStep, dropnaStep, rangeStep, tsStep, calStep, normRow, inRange,
    h1, h2, h11, h12, h21, h22]

/-- C2.  For a two-row input whose rows both survive validation (numeric ratings
in range) and whose review texts are equal after normalization, exactly one row
survives `basic_clean`; when both timestamps parse, the survivor is the row with
the later timestamp, and when both are unknown (NaT) the survivor is determined
by stable input order (the later input row, since the sort is stable and
deduplication keeps the last occurrence). -/
theorem C2_dedup_keeps_latest (dayOf monthOf : Nat → String) (r1 r2 : PRow) (q1 q2 : ℚ)
    (h1 : r1.rating = some q1) (h11 : 1 ≤ q1) (h12 : q1 ≤ 5)
    (h2 : r2.rating = some q2) (h21 : 1 ≤ q2) (h22 : q2 ≤ 5)
    (hrev : pyTrim (pyStr r1.review) = pyTrim (pyStr r2.review)) :
    (basic_clean dayOf monthOf defaultCleanConfig [r1, r2]).length = 1 ∧
    (∀ t1 t2 : Nat, r1.timestamp = some t1 → r2.timestamp = some t2 → t1 < t2 →
      basic_clean dayOf monthOf defaultCleanConfig [r1, r2] =
        [labelRow (normRow dayOf monthOf r2)]) ∧
    (∀ t1 t2 : Nat, r1.timestamp = some t1 → r2.timestamp = some t2 → t2 < t1 →
      basic_clean dayOf monthOf defaultCleanConfig [r1, r2] =
        [labelRow (normRow dayOf monthOf r1)]) ∧
    (r1.timestamp = none → r2.timestamp = none →
      basic_clean dayOf monthOf defaultCleanConfig [r1, r2] =
        [labelRow (normRow dayOf monthOf r2)]) := by
  have hrev' : (normRow dayOf monthOf r1).review = (normRow dayOf monthOf r2).review := by
    simp [hrev]
  have hbc : basic_clean dayOf monthOf defaultCleanConfig [r1, r2] =
      if tsLE r1.timestamp r2.timestamp then [labelRow (normRow dayOf monthOf r2)]
      else [labelRow (normRow dayOf monthOf r1)] := by
    rw [basic_clean, prep_two dayOf monthOf r1 r2 q1 q2 h1 h11 h12 h2 h21 h22,
      two_row_core _ _ hrev']
    simp
  refine ⟨?_, ?_, ?_, ?_⟩
  · rw [hbc]
    by_cases hc : tsLE r1.timestamp r2.timestamp = true <;> simp [hc]
  · intro t1 t2 ht1 ht2 hlt
    rw [hbc, if_pos]
    rw [ht1, ht2]
    simp only [tsLE, decide_eq_true_eq]
    omega
  · intro t1 t2 ht1 ht2 hlt
    rw [hbc, if_neg]
    rw [ht1, ht2]
    simp only [tsLE, decide_eq_true_eq]
    omega
  · intro ht1 ht2
    rw [hbc, if_pos]
    rw [ht1, ht2]
    rfl

/-- Example rows with equal review text (after stripping) and distinct timestamps. -/
def rowA : PRow := ⟨some "google", some " top eten ", some 1, none, some 10, none, none, none⟩

/-- The later duplicate of `rowA`. -/
def rowB : PRow := ⟨some "tripadvisor", some "top eten", some 5, none, some 20, none, none, none⟩

/-- Witness for C2: of two duplicate reviews with timestamps 10 < 20, exactly the
later one survives. -/
theorem C2_witness :
    basic_clean cal0 cal0 defaultCleanConfig [rowA, rowB] =
      [labelRow (normRow cal0 cal0 rowB)] :=
  (C2_dedup_keeps_latest cal0 cal0 rowA rowB 1 5 rfl (by decide) (by decide) rfl
    (by decide) (by decide) (by decide)).2.1 10 20 rfl rfl (by decide)

/-- Witness for C1 at a concrete surviving row. -/
theorem C1_witness :
    (labelRow (normRow cal0 cal0 rowB)).sentiment =
      some (label_sentiment_cell (labelRow (normRow cal0 cal0 rowB)).rating) ∧
    (∃ q : ℚ, (labelRow (normRow cal0 cal0 rowB)).rating = some q ∧ 1 ≤ q ∧ q ≤ 5) ∧
    label_sentiment 1 = "negative" ∧ label_sentiment 2 = "negative" ∧
    label_sentiment 3 = "neutral" ∧
    label_sentiment 4 = "positive" ∧ label_sentiment 5 = "positive" :=
  C1_sentiment_pure_function cal0 cal0 [rowB, rowB]
    (labelRow (normRow cal0 cal0 rowB)) (by decide)

/-! ## C3: negation fusion -/

/-- C3 (counterexample to the claim as stated).  In the NLTK/stemming fallback the
fused token is `not_<raw next word>`, not `not_<stem of next word>`: with the
Snowball Dutch stemmer (which stems "lekkere" to "lekker"), cleaning
"niet lekkere" yields "not_lekkere", which differs from "not_" followed by the
stem of "lekkere". -/
theorem C3_cex :
    clean_nltk stop_set snowball_model "niet lekkere" = "not_lekkere" ∧
    snowball_model "lekkere" = "lekker" ∧
    clean_nltk stop_set snowball_model "niet lekkere" ≠
      "not_" ++ snowball_model "lekkere" := by
  refine ⟨by decide, by decide, by decide⟩

/-- C3 (amended).  When either cleaner meets a negation marker ("niet"/"geen")
followed by a content token that is not a stop word and has length > 2, it emits
a single fused token and advances past both tokens; the fused token is
`not_<lemma of the following token>` in the spaCy path but `not_<raw following
word>` in the NLTK fallback (the stemmer `st` is not applied to it).  In
particular both cleaners map "niet goed" to the single token "not_goed". -/
theorem C3_negation_fusion (stop : String → Bool) (st : String → String)
    (w nxt : String) (rest : List String)
    (tokW tokN : SToken) (trest : List SToken)
    (hw : w = "niet" ∨ w = "geen") (hstop : stop nxt = false) (hlen : 2 < nxt.length)
    (hsp : tokW.is_space = false) (hpu : tokW.is_punct = false)
    (hlem : pyTrim tokW.lemma_ = "niet" ∨ pyTrim tokW.lemma_ = "geen")
    (hne : pyTrim tokN.lemma_ ≠ "") (hstop2 : stop (pyTrim tokN.lemma_) = false)
    (hlen2 : 2 < (pyTrim tokN.lemma_).length) :
    negLoopNltk stop st (w :: nxt :: rest) =
      ("not_" ++ nxt) :: negLoopNltk stop st rest ∧
    spacyLoop stop (tokW :: tokN :: trest) =
      ("not_" ++ pyTrim tokN.lemma_) :: spacyLoop stop trest ∧
    clean_nltk stop_set st "niet goed" = "not_goed" ∧
    clean_spacy stop_set nlp_model "niet goed" = "not_goed" := by
  refine ⟨?_, ?_, rfl, rfl⟩
  · rcases hw with hw | hw <;> subst hw <;> simp [negLoopNltk, hstop, hlen]
  · rcases hlem with hlem | hlem <;>
      simp [spacyLoop, hsp, hpu, hlem, hne, hstop2, hlen2]

/-- Witness for C3 at concrete tokens ("niet goed" in both pipelines). -/
theorem C3_witness :
    negLoopNltk stop_set snowball_model ["niet", "goed"] =
      ("not_" ++ "goed") :: negLoopNltk stop_set snowball_model [] ∧
    spacyLoop stop_set [⟨"niet", false, false⟩, ⟨"goed", false, false⟩] =
      ("not_" ++ pyTrim (SToken.mk "goed" false false).lemma_) :: spacyLoop stop_set [] ∧
    clean_nltk stop_set snowball_model "niet goed" = "not_goed" ∧
    clean_spacy stop_set nlp_model "niet goed" = "not_goed" :=
  C3_negation_fusion stop_set snowball_model "niet" "goed" []
    ⟨"niet", false, false⟩ ⟨"goed", false, false⟩ []
    (Or.inl rfl) (by decide) (by decide) rfl rfl (Or.inl (by decide))
    (by decide) (by decide) (by decide)

/-! ## C7: the text cleaner is not idempotent -/

/-- C7 (counterexample to the claim as stated).  Cleaning "niet goed" yields
"not_goed", but cleaning that output again yields "notgoed": the underscore of
the fused token is punctuation and is deleted by the second pass, so the cleaner
is not idempotent. -/
theorem C7_cex :
    clean_nltk stop_set snowball_model
        (clean_nltk stop_set snowball_model "niet goed") ≠
      clean_nltk stop_set snowball_model "niet goed" := by
  decide

/-- C7 (amended).  The cleaner is not idempotent on any input that produces a
fused negation token: a first pass over "niet goed" returns the single token
"not_goed"; a second pass strips its underscore as punctuation and returns the
stem of the merged word "notgoed", so for every stemmer that does not map
"notgoed" back to "not_goed" (no real stemmer inserts an underscore) the two
passes disagree. -/
theorem C7_not_idempotent (st : String → String) (h : st "notgoed" ≠ "not_goed") :
    clean_nltk stop_set st "niet goed" = "not_goed" ∧
    clean_nltk stop_set st (clean_nltk stop_set st "niet goed") = st "notgoed" ∧
    clean_nltk stop_set st (clean_nltk stop_set st "niet goed") ≠
      clean_nltk stop_set st "niet goed" := by
  refine ⟨rfl, rfl, ?_⟩
  intro hcontra
  exact h (by simpa using hcontra)

/-- Witness for C7 with the modelled Snowball Dutch stemmer. -/
theorem C7_witness :
    clean_nltk stop_set snowball_model "niet goed" = "not_goed" ∧
    clean_nltk stop_set snowball_model
        (clean_nltk stop_set snowball_model "niet goed") = snowball_model "notgoed" ∧
    clean_nltk stop_set snowball_model
        (clean_nltk stop_set snowball_model "niet goed") ≠
      clean_nltk stop_set snowball_model "niet goed" :=
  C7_not_idempotent snowball_model (by decide)

/-! ## C5: complaint tagging is independent per category, totals over all texts -/

lemma taxonomy_keys_nodup : (complaint_taxonomy.map Prod.fst).Nodup := by decide

lemma key_unique {l : List (String × List String)} (h : (l.map Prod.fst).Nodup)
    {k : String} {a b : List String} (ha : (k, a) ∈ l) (hb : (k, b) ∈ l) : a = b := by
  induction l with
  | nil => cases ha
  | cons x xs ih =>
    simp only [List.map_cons, List.nodup_cons] at h
    rcases List.mem_cons.1 ha with ha0 | ha'
    · rcases List.mem_cons.1 hb with hb0 | hb'
      · have := ha0.trans hb0.symm
        exact congrArg Prod.snd this
      · exact absurd (List.mem_map.2 ⟨(k, b), hb', by rw [← ha0]⟩) h.1
    · rcases List.mem_cons.1 hb with hb0 | hb'
      · exact absurd (List.mem_map.2 ⟨(k, a), ha', by rw [← hb0]⟩) h.1
      · exact ih h.2 ha' hb'

lemma tagText_nodup (t : String) : (tagText t).Nodup :=
  ((List.filter_sublist _).map Prod.fst).nodup taxonomy_keys_nodup

lemma mem_tagText_iff {k : String} {pat : List String}
    (hk : (k, pat) ∈ complaint_taxonomy) (t : String) :
    k ∈ tagText t ↔ rxSearch pat t = true := by
  constructor
  · intro h
    rcases List.mem_map.1 h with ⟨kv, hkv, hfst⟩
    rcases List.mem_filter.1 hkv with ⟨hmem, hsearch⟩
    have hkv' : (k, kv.2) ∈ complaint_taxonomy := by
      rw [← hfst]
      simpa using hmem
    have hpat : kv.2 = pat := key_unique taxonomy_keys_nodup hkv' hk
    rw [← hpat]
    exact hsearch
  · intro h
    exact List.mem_map.2 ⟨(k, pat), List.mem_filter.2 ⟨hk, h⟩, rfl⟩

lemma count_tagText {k : String} {pat : List String}
    (hk : (k, pat) ∈ complaint_taxonomy) (t : String) :
    (tagText t).count k = if rxSearch pat t = true then 1 else 0 := by
  by_cases h : rxSearch pat t = true
  · rw [if_pos h]
    exact List.count_eq_one_of_mem (tagText_nodup t) ((mem_tagText_iff hk t).2 h)
  · rw [if_neg h]
    exact List.count_eq_zero_of_not_mem (fun hc => h ((mem_tagText_iff hk t).1 hc))

lemma count_flatten_tag {k : String} {pat : List String}
    (hk : (k, pat) ∈ complaint_taxonomy) :
    ∀ texts : List String,
      ((texts.map tagText).flatten.count k) =
        (texts.filter (fun t => rxSearch pat t)).length := by
  intro texts
  induction texts with
  | nil => simp
  | cons t ts ih =>
    simp only [List.map_cons, List.flatten_cons, List.count_append, List.filter_cons]
    rw [count_tagText hk]
    by_cases h : rxSearch pat t = true
    · simp [h, ih, Nat.add_comm]
    · simp [h, ih]

/-- C5.  The taxonomy has exactly eight fixed categories; each category is tested
independently by searching its pattern anywhere in the text (membership of a
category in a text's tag list is equivalent to its pattern matching, so a text
can receive zero, one, or many tags); and for every category the returned total
equals the number of all input texts matched by its pattern — with no
restriction to negative-labelled texts. -/
theorem C5_tagging_counts (k : String) (pat : List String)
    (hk : (k, pat) ∈ complaint_taxonomy) :
    complaint_taxonomy.length = 8 ∧
    (∀ t : String, k ∈ tagText t ↔ rxSearch pat t = true) ∧
    (∀ texts : List String,
      (tag_complaints texts).1 = texts.map tagText ∧
      (tag_complaints texts).2.count k =
        (texts.filter (fun t => rxSearch pat t)).length) := by
  refine ⟨by decide, fun t => mem_tagText_iff hk t, fun texts => ⟨rfl, ?_⟩⟩
  exact count_flatten_tag hk texts

/-- Witness for C5 at the wait_time category: a text tagged with several
categories, one with none, and the totals over a small batch. -/
theorem C5_witness :
    ("wait_time" ∈ tagText "lang wachten en vies eten" ↔
      rxSearch ["wacht", "wachttijd", "lang", "traag", "op tijd", "duur", "snel", "verlaat"]
        "lang wachten en vies eten" = true) ∧
    (tag_complaints ["lang wachten en vies eten", "prima"]).2.count "wait_time" =
      (["lang wachten en vies eten", "prima"].filter
        (fun t => rxSearch ["wacht", "wachttijd", "lang", "traag", "op tijd", "duur", "snel", "verlaat"] t)).length :=
  ⟨((C5_tagging_counts "wait_time" _ (by decide)).2.1 "lang wachten en vies eten"),
   ((C5_tagging_counts "wait_time" _ (by decide)).2.2 ["lang wachten en vies eten", "prima"]).2⟩

/-! ## C6: model selection stays inside the grid, with a deterministic fallback -/

lemma select_fold_cases (score : String → Option ℚ) :
    ∀ (l : List String) (acc : Option String × ℚ),
      (select_fold score l acc).1 = acc.1 ∨ ∃ n ∈ l, (select_fold score l acc).1 = some n := by
  intro l
  induction l with
  | nil => intro acc; exact Or.inl rfl
  | cons x xs ih =>
    intro acc
    have hstep : select_fold score (x :: xs) acc =
        select_fold score xs (match score x with
          | none => acc
          | some s => if acc.2 < s then (some x, s) else acc) := by
      simp [select_fold]
    rw [hstep]
    rcases ih (match score x with
      | none => acc
      | some s => if acc.2 < s then (some x, s) else acc) with h | ⟨n, hn, h⟩
    · rw [h]
      cases hsx : score x with
      | none => exact Or.inl rfl
      | some s =>
        by_cases hlt : acc.2 < s
        · exact Or.inr ⟨x, List.mem_cons_self _ _, by simp [hlt]⟩
        · exact Or.inl (by simp [hlt])
    · exact Or.inr ⟨n, List.mem_cons_of_mem _ hn, h⟩

lemma select_fold_all_none (score : String → Option ℚ) :
    ∀ (l : List String) (acc : Option String × ℚ),
      (∀ n ∈ l, score n = none) → select_fold score l acc = acc := by
  intro l
  induction l with
  | nil => intro acc _; rfl
  | cons x xs ih =>
    intro acc hall
    have hx : score x = none := hall x (List.mem_cons_self _ _)
    have hstep : select_fold score (x :: xs) acc = select_fold score xs acc := by
      simp [select_fold, hx]
    rw [hstep]
    exact ih acc (fun n hn => hall n (List.mem_cons_of_mem _ hn))

/-- C6.  The name returned by `train_sentiment_model` always belongs to the
configured nine-candidate grid (five logistic regressions, four linear SVCs),
and whenever cross-validation yields no finite score for any candidate (it ran
with an exception or a non-finite mean for each, as happens for degenerate class
counts) the function deterministically returns the first candidate of the grid. -/
theorem C6_model_selection (classCounts : List Nat) (score : String → Option ℚ) :
    train_sentiment_model classCounts score ∈ candidate_grid ∧
    candidate_grid.length = 9 ∧
    ((∀ n ∈ candidate_grid, score n = none) →
      train_sentiment_model classCounts score = "logreg_C=0.1") := by
  refine ⟨?_, by decide, ?_⟩
  · unfold train_sentiment_model
    by_cases hs : 2 ≤ n_splits classCounts
    · simp only [hs, if_true]
      rcases select_fold_cases score candidate_grid (none, -1) with h | ⟨n, hn, h⟩
      · rw [h]
        decide
      · rw [h]
        simpa using hn
    · simp only [hs, if_false]
      decide
  · intro hall
    unfold train_sentiment_model
    by_cases hs : 2 ≤ n_splits classCounts
    · rw [if_pos hs, select_fold_all_none score candidate_grid _ hall]
      rfl
    · rw [if_neg hs]
      rfl

/-- Witness for C6: with no finite cross-validation score at all, the first grid
candidate is selected. -/
theorem C6_witness :
    train_sentiment_model [5, 5] (fun _ => none) = "logreg_C=0.1" :=
  (C6_model_selection [5, 5] (fun _ => none)).2.2 (fun _ _ => rfl)

/-! ## C8: a zero-row run does not produce a report -/

/-- C8 (counterexample to the claim as stated).  A pipeline run over an input
with zero rows does not complete: the unconditional stratified train/test split
raises `ValueError` on an empty sample, so no aggregate report is produced. -/
theorem C8_cex :
    run_main cal0 cal0 (fun t => t) [] (fun _ => none) [] =
      Except.error "ValueError: with n_samples=0 the resulting train set will be empty" := rfl

/-- C8 (amended).  Whenever normalization leaves zero rows (in particular for a
zero-row input), `main` aborts with the `ValueError` raised by the stratified
train/test split instead of producing an (empty) aggregate report. -/
theorem C8_empty_input_errors (dayOf monthOf : Nat → String) (cleanText : String → String)
    (classCounts : List Nat) (score : String → Option ℚ) (rows : List PRow)
    (h : basic_clean dayOf monthOf defaultCleanConfig rows = []) :
    run_main dayOf monthOf cleanText classCounts score rows =
      Except.error "ValueError: with n_samples=0 the resulting train set will be empty" := by
  simp only [run_main, h, List.map_nil, train_test_split]
  rfl

/-- Witness for C8 at the empty input. -/
theorem C8_witness :
    run_main cal0 cal0 (fun t => t) [3] (fun _ => none) [] =
      Except.error "ValueError: with n_samples=0 the resulting train set will be empty" :=
  C8_empty_input_errors cal0 cal0 (fun t => t) [3] (fun _ => none) [] rfl

/-! ## C9: suggestion-generator error handling -/

/-- Model of `json.loads` on response bodies that are not valid JSON: it raises
`JSONDecodeError` on every input it is consulted at here. -/
def jloads_fail : String → JLoadResult := fun _ => JLoadResult.err

/-- Model of `json.loads` for a response that parses as a JSON list with a
repeated element. -/
def jloads_dup : String → JLoadResult :=
  fun _ => JLoadResult.list ["Verbeter de wachttijd.", "Verbeter de wachttijd."]

/-- C9 (counterexample to the claim as stated).  When the call succeeds in
transport but returns content that is not parseable as JSON,
`generate_suggestions_llm` does not return an empty sequence: the line heuristic
of lines 83-86 returns the non-blank lines, and it does not de-duplicate them. -/
theorem C9_cex :
    generate_suggestions_llm jloads_fail
        (LLMCall.response "Overweeg meer personeel in het weekend.") =
      ["Overweeg meer personeel in het weekend."] ∧
    generate_suggestions_llm jloads_fail
        (LLMCall.response "- Doe dit beter\n- Doe dit beter") =
      ["Doe dit beter", "Doe dit beter"] ∧
    ¬ (generate_suggestions_llm jloads_fail
        (LLMCall.response "- Doe dit beter\n- Doe dit beter")).Nodup := by
  refine ⟨by decide, by decide, by decide⟩

lemma dedupSeen_spec :
    ∀ (l seen : List String),
      (dedupSeen seen l).Nodup ∧ ∀ s ∈ dedupSeen seen l, s ∉ seen := by
  intro l
  induction l with
  | nil => intro seen; exact ⟨List.nodup_nil, by simp [dedupSeen]⟩
  | cons x xs ih =>
    intro seen
    by_cases hx : x ∈ seen
    · constructor
      · have h := (ih seen).1
        simpa [dedupSeen, hx] using h
      · intro s hs
        have hs' : s ∈ dedupSeen seen xs := by simpa [dedupSeen, hx] using hs
        exact (ih seen).2 s hs'
    · have hrw : dedupSeen seen (x :: xs) = x :: dedupSeen (x :: seen) xs := by
        simp [dedupSeen, hx]
      rw [hrw]
      constructor
      · refine List.nodup_cons.2 ⟨?_, (ih (x :: seen)).1⟩
        intro hmem
        exact ((ih (x :: seen)).2 x hmem) (List.mem_cons_self _ _)
      · intro s hs
        rcases List.mem_cons.1 hs with rfl | hs'
        · exact hx
        · intro hsSeen
          exact ((ih (x :: seen)).2 s hs') (List.mem_cons_of_mem _ hsSeen)

/-- C9 (amended).  On any raised exception (transport failure, timeout, HTTP
error, unreadable response object) `generate_suggestions_llm` returns the empty
list and never propagates; when the response parses as a JSON list the returned
list is de-duplicated (no duplicates remain); when it does not parse as a JSON
list the line heuristic returns at most 7 lines (possibly non-empty and with
duplicates — see the counterexample); and the pipeline writes the static
fallback message exactly when the suggestion list is empty. -/
theorem C9_error_handling (jloads : String → JLoadResult) :
    generate_suggestions_llm jloads LLMCall.exn = [] ∧
    (∀ body items, jloads (pyTrim body) = JLoadResult.list items →
      (generate_suggestions_llm jloads (LLMCall.response body)).Nodup) ∧
    (∀ body, (jloads (pyTrim body) = JLoadResult.err ∨
        jloads (pyTrim body) = JLoadResult.notList) →
      (generate_suggestions_llm jloads (LLMCall.response body)).length ≤ 7) ∧
    business_suggestions_file [] = fallback_message := by
  refine ⟨rfl, ?_, ?_, rfl⟩
  · intro body items h
    simp only [generate_suggestions_llm, h]
    exact (dedupSeen_spec _ []).1
  · intro body h
    rcases h with h | h <;> simp only [generate_suggestions_llm, h] <;>
      exact List.length_take_le _ _

/-- Witness for C9: a duplicated JSON list is de-duplicated, and the exception
path returns the empty list. -/
theorem C9_witness :
    (generate_suggestions_llm jloads_dup (LLMCall.response "dummy")).Nodup ∧
    generate_suggestions_llm jloads_dup LLMCall.exn = [] :=
  ⟨(C9_error_handling jloads_dup).2.1 "dummy" _ rfl, (C9_error_handling jloads_dup).1⟩
